import Mathlib

/-!
Verification development for a section-based presentation surface: a
scroll-snap section navigator (SectionObserver) and a glyph-field canvas
with ripple effects (AsciiCanvas). The definitions below are a shallow
embedding of the two components' state and handlers; machine numbers are
modelled as rationals, timers as absolute fire deadlines, and the DOM
side effects (preventDefault, scrollIntoView, event dispatch) as an
explicit effect list.
-/

namespace PersonalSite

/-- Fixed lock duration for a programmatic scroll (SCROLL_LOCK_MS = 900). -/
def SCROLL_LOCK_MS : ℚ := 900

/-- Wheel accumulator trigger threshold (WHEEL_TRIGGER = 80). -/
def WHEEL_TRIGGER : ℚ := 80

/-- Touch displacement trigger threshold (TOUCH_TRIGGER = 70). -/
def TOUCH_TRIGGER : ℚ := 70

/-- Wheel accumulator inactivity reset delay (WHEEL_RESET_MS = 220). -/
def WHEEL_RESET_MS : ℚ := 220

/-- Side tag of a section: 'left' or 'right'. -/
inductive Side where
  | left
  | right
  deriving DecidableEq, Repr

/-- A section element as the navigator sees it: its dataset attributes
data-section-id and data-section-side, each possibly absent. -/
structure SectionEl where
  sectionId : Option String
  sectionSide : Option String
  deriving DecidableEq, Repr

/-- The navigator's module-level mutable state: activeIndex, the
animation lock, the wheel accumulator, the two timer handles (modelled
as the absolute time at which each pending timer fires), the pending
touch origin and the active side. -/
structure NavState where
  activeIndex : Nat
  isAnimating : Bool
  wheelDelta : ℚ
  wheelResetTimer : Option ℚ
  releaseTimer : Option ℚ
  touchStartY : Option ℚ
  activeSide : Side
  deriving DecidableEq, Repr

/-- Observable side effects of the navigator's handlers. -/
inductive Eff where
  | preventDefault
  | scrollIntoView (index : Nat)
  | publish (id : String) (side : Side)
  deriving DecidableEq, Repr

/-- resetWheel: clear the wheel reset timer and zero the accumulator. -/
def resetWheel (s : NavState) : NavState :=
  { s with wheelResetTimer := none, wheelDelta := 0 }

/-- unlockScroll: clear the release timer and drop the animation lock. -/
def unlockScroll (s : NavState) : NavState :=
  { s with releaseTimer := none, isAnimating := false }

/-- scheduleWheelReset: re-arm the wheel reset timer WHEEL_RESET_MS from now. -/
def scheduleWheelReset (now : ℚ) (s : NavState) : NavState :=
  { s with wheelResetTimer := some (now + WHEEL_RESET_MS) }

/-- scrollToIndex: reject out-of-range targets silently; otherwise clear
wheel accumulation, set the lock, request the smooth scroll and arm the
unconditional release timer SCROLL_LOCK_MS from now. -/
def scrollToIndex (sections : List SectionEl) (now : ℚ) (s : NavState)
    (index : Int) : NavState × List Eff :=
  if index < 0 ∨ (sections.length : Int) ≤ index then (s, [])
  else
    let s1 := resetWheel s
    ({ s1 with isAnimating := true,
               releaseTimer := some (now + SCROLL_LOCK_MS) },
     [Eff.scrollIntoView index.toNat])

/-- Side derived from a section's data-section-side attribute: 'right'
exactly when the attribute equals "right", otherwise 'left'. -/
def sideOf (el : SectionEl) : Side :=
  if el.sectionSide = some "right" then Side.right else Side.left

/-- setActive: given the index of the element reported visible, bail out
when its id is missing or empty; otherwise record the new active index
and side and dispatch one section-change event. -/
def setActive (sections : List SectionEl) (s : NavState) (idx : Nat) :
    NavState × List Eff :=
  match sections[idx]? with
  | none => (s, [])
  | some el =>
    match el.sectionId with
    | none => (s, [])
    | some id =>
      if id = "" then (s, [])
      else
        ({ s with activeIndex := idx, activeSide := sideOf el },
         [Eff.publish id (sideOf el)])

/-- An IntersectionObserver entry: the observed section's index, whether
it intersects, and its intersection ratio. -/
structure ObsEntry where
  target : Nat
  isIntersecting : Bool
  ratio : ℚ
  deriving DecidableEq, Repr

/-- Head of the entries filtered to intersecting ones and sorted by
descending ratio (a stable sort, so the first entry among ratio ties). -/
def pickMostVisible (entries : List ObsEntry) : Option ObsEntry :=
  (entries.filter fun e => e.isIntersecting).foldl
    (fun best e =>
      match best with
      | none => some e
      | some b => if b.ratio < e.ratio then some e else best)
    none

/-- The IntersectionObserver callback: activate the most visible
intersecting section, if any. -/
def observerCallback (sections : List SectionEl) (s : NavState)
    (entries : List ObsEntry) : NavState × List Eff :=
  match pickMostVisible entries with
  | none => (s, [])
  | some e => setActive sections s e.target

/-- handleWheel: while locked, consume the event outright; otherwise
accumulate the delta, re-arm the inactivity reset, and once the
accumulator's magnitude reaches WHEEL_TRIGGER resolve a direction,
attempt the in-bounds transition and reset the accumulator. -/
def handleWheel (sections : List SectionEl) (now : ℚ) (s : NavState)
    (deltaY : ℚ) : NavState × List Eff :=
  if s.isAnimating then (s, [Eff.preventDefault])
  else
    let s1 := scheduleWheelReset now { s with wheelDelta := s.wheelDelta + deltaY }
    if |s1.wheelDelta| < WHEEL_TRIGGER then (s1, [])
    else
      let direction : Int := if s1.wheelDelta > 0 then 1 else -1
      let targetIndex : Int := (s.activeIndex : Int) + direction
      let step :=
        if 0 ≤ targetIndex ∧ targetIndex < (sections.length : Int) then
          scrollToIndex sections now s1 targetIndex
        else (s1, [])
      (resetWheel step.1, Eff.preventDefault :: step.2)

/-- handleTouchStart: with exactly one touch, record its y coordinate
and reset the wheel accumulator. -/
def handleTouchStart (s : NavState) (touches : List ℚ) : NavState × List Eff :=
  match touches with
  | [y] => (resetWheel { s with touchStartY := some y }, [])
  | _ => (s, [])

/-- handleTouchMove: ignored without a recorded start or while locked;
once the vertical displacement reaches TOUCH_TRIGGER, resolve a
direction, attempt the in-bounds transition, and clear the start. -/
def handleTouchMove (sections : List SectionEl) (now : ℚ) (s : NavState)
    (currentY : ℚ) : NavState × List Eff :=
  match s.touchStartY with
  | none => (s, [])
  | some startY =>
    if s.isAnimating then (s, [])
    else
      let delta := startY - currentY
      if |delta| < TOUCH_TRIGGER then (s, [])
      else
        let direction : Int := if delta > 0 then 1 else -1
        let targetIndex : Int := (s.activeIndex : Int) + direction
        let step :=
          if 0 ≤ targetIndex ∧ targetIndex < (sections.length : Int) then
            scrollToIndex sections now s targetIndex
          else (s, [])
        ({ step.1 with touchStartY := none }, Eff.preventDefault :: step.2)

/-- Input events driving the navigator: gestures, visibility
notifications, and the two one-shot timer callbacks firing. -/
inductive NavEvent where
  | wheel (now deltaY : ℚ)
  | touchStart (touches : List ℚ)
  | touchMove (now y : ℚ)
  | touchEnd
  | visibility (entries : List ObsEntry)
  | wheelResetFire
  | releaseFire
  deriving DecidableEq, Repr

/-- One step of the navigator: dispatch an input event to its handler. -/
def navStep (sections : List SectionEl) (s : NavState) :
    NavEvent → NavState × List Eff
  | NavEvent.wheel now dy => handleWheel sections now s dy
  | NavEvent.touchStart ts => handleTouchStart s ts
  | NavEvent.touchMove now y => handleTouchMove sections now s y
  | NavEvent.touchEnd => ({ s with touchStartY := none }, [])
  | NavEvent.visibility es => observerCallback sections s es
  | NavEvent.wheelResetFire => ({ s with wheelDelta := 0, wheelResetTimer := none }, [])
  | NavEvent.releaseFire => (unlockScroll s, [])

/-- Whether an effect list contains a scrollIntoView request. -/
def issuesScroll (effs : List Eff) : Bool :=
  effs.any fun e =>
    match e with
    | Eff.scrollIntoView _ => true
    | _ => false

/-- Capacity of the ripple collection (MAX_RIPPLES = 6). -/
def MAX_RIPPLES : Nat := 6

/-- Star sampling density (STAR_DENSITY = 0.012). -/
def STAR_DENSITY : ℚ := 12 / 1000

/-- A transient radial disturbance: origin, start timestamp (ms),
duration (s), angular speed and strength. -/
structure Ripple where
  x : ℚ
  y : ℚ
  start : ℚ
  duration : ℚ
  speed : ℚ
  strength : ℚ
  deriving DecidableEq, Repr

/-- The ripple object pushRipple constructs: fixed duration 2.6 s and
speed 7.1, with the given origin, strength and creation time. -/
def newRipple (originX originY strength now : ℚ) : Ripple :=
  { x := originX, y := originY, start := now,
    duration := 26 / 10, speed := 71 / 10, strength := strength }

/-- pushRipple: append the new ripple; when the collection then exceeds
MAX_RIPPLES, shift off the oldest (the list's head). -/
def pushRipple (rs : List Ripple) (originX originY strength now : ℚ) :
    List Ripple :=
  let rs1 := rs ++ [newRipple originX originY strength now]
  if MAX_RIPPLES < rs1.length then rs1.tail else rs1

/-- Operations touching the ripple collection: an insertion (pushRipple)
or one animation frame (renderFrame, which reads but never writes it). -/
inductive RippleOp where
  | push (originX originY strength now : ℚ)
  | frame (timestamp : ℚ)
  deriving DecidableEq, Repr

/-- Effect of one operation on the ripple collection: renderFrame leaves
it untouched; pushRipple appends and possibly evicts. -/
def rippleStep (rs : List Ripple) : RippleOp → List Ripple
  | RippleOp.push ox oy str now => pushRipple rs ox oy str now
  | RippleOp.frame _ => rs

/-- Age of a ripple in seconds at a frame timestamp in milliseconds. -/
def rippleAge (r : Ripple) (timestamp : ℚ) : ℚ := (timestamp - r.start) / 1000

/-- Temporal decay factor of a ripple: Math.max(0, 1 - age / duration). -/
def temporalDecay (age duration : ℚ) : ℚ := max 0 (1 - age / duration)

/-- Euclidean distance from a cell's center to a ripple's origin. -/
noncomputable def rippleDist (r : Ripple) (px py cell : ℚ) : ℝ :=
  Real.sqrt (((px + cell * (5 / 10) - r.x : ℚ) : ℝ) ^ 2 +
    ((py + cell * (5 / 10) - r.y : ℚ) : ℝ) ^ 2)

/-- Additive contribution of one ripple to one cell's composited value:
sin(dist*0.015 - age*speed*0.6) * (max(0, 1 - age/duration) *
exp(-dist*0.001)) * strength * 0.2. -/
noncomputable def rippleContribution (r : Ripple) (timestamp px py cell : ℚ) : ℝ :=
  Real.sin (rippleDist r px py cell * (15 / 1000) -
      (rippleAge r timestamp : ℝ) * (r.speed : ℝ) * (6 / 10)) *
    ((temporalDecay (rippleAge r timestamp) r.duration : ℝ) *
      Real.exp (-(rippleDist r px py cell) * (1 / 1000))) *
    (r.strength : ℝ) * (2 / 10)

/-- Number of random star samples drawn for a grid of `total` cells:
Math.max(80, Math.floor(total * STAR_DENSITY)). -/
def starCount (total : Nat) : Nat :=
  max 80 (Nat.floor ((total : ℚ) * STAR_DENSITY))

/-- regenerateStars: starting from an all-false mask of cols*rows cells,
draw starCount random positions (rand i models Math.random() for the
i-th draw, in [0, 1)) and set each drawn cell; duplicate draws land on
the same cell, and an out-of-range index writes nothing. -/
def regenerateStars (cols rows : Nat) (rand : Nat → ℚ) : List Bool :=
  (List.range (starCount (cols * rows))).foldl
    (fun mask i => mask.set (Nat.floor (rand i * ((cols * rows : Nat) : ℚ))) true)
    (List.replicate (cols * rows) false)

/-- Payload of a section-change event as the canvas receives it; either
field may be absent. -/
structure SectionPayload where
  id : Option String
  side : Option String
  deriving DecidableEq, Repr

/-- The canvas state the section-change handler touches: the active
section tint key and the ripple collection. -/
structure CanvasState where
  activeSection : String
  ripples : List Ripple
  deriving DecidableEq, Repr

/-- handleSectionChange: bail out when the payload or its id is missing
or empty; otherwise adopt the id as the active tint, default a missing
side to 'left', place the ripple origin on the opposite (icon) side and
insert a ripple of strength 0.65. -/
def handleSectionChange (c : CanvasState) (detail : Option SectionPayload)
    (width height now : ℚ) : CanvasState :=
  match detail.bind SectionPayload.id with
  | none => c
  | some id =>
    if id = "" then c
    else
      let contentSide := (detail.bind SectionPayload.side).getD "left"
      let iconSide := if contentSide = "left" then "right" else "left"
      let originX := if iconSide = "left" then width * (18 / 100)
                     else width * (82 / 100)
      { activeSection := id,
        ripples := pushRipple c.ripples originX (height * (45 / 100)) (65 / 100) now }

/-- A one-section page used by concrete witnesses. -/
def sections1 : List SectionEl := [⟨some "about", some "left"⟩]

/-- A two-section page used by concrete witnesses. -/
def sections2 : List SectionEl :=
  [⟨some "about", some "left"⟩, ⟨some "tech", some "right"⟩]

/-- A page whose only section lacks an id, used by concrete witnesses. -/
def sections3 : List SectionEl := [⟨none, some "left"⟩]

/-- An idle navigator state used by concrete witnesses. -/
def nav0 : NavState :=
  { activeIndex := 0, isAnimating := false, wheelDelta := 0,
    wheelResetTimer := none, releaseTimer := none, touchStartY := none,
    activeSide := Side.left }

/-- A locked navigator state used by concrete witnesses. -/
def navLocked : NavState :=
  { activeIndex := 0, isAnimating := true, wheelDelta := 5,
    wheelResetTimer := none, releaseTimer := some 1000, touchStartY := none,
    activeSide := Side.left }

/-- A ripple collection already at capacity, used by concrete witnesses. -/
def rsFull : List Ripple :=
  [newRipple 0 0 1 0, newRipple 1 0 1 1, newRipple 2 0 1 2,
   newRipple 3 0 1 3, newRipple 4 0 1 4, newRipple 5 0 1 5]

/-- A ripple born at time 0, expired by timestamp 2700 ms. -/
def expiredRipple : Ripple := newRipple 100 100 (65 / 100) 0

/-- setActive leaves every field other than activeIndex and activeSide
untouched, on every path. -/
theorem setActive_frame (sections : List SectionEl) (s : NavState) (idx : Nat) :
    (setActive sections s idx).1.isAnimating = s.isAnimating ∧
    (setActive sections s idx).1.releaseTimer = s.releaseTimer ∧
    (setActive sections s idx).1.wheelDelta = s.wheelDelta ∧
    (setActive sections s idx).1.wheelResetTimer = s.wheelResetTimer ∧
    (setActive sections s idx).1.touchStartY = s.touchStartY := by
  rcases hel : sections[idx]? with _ | el
  · simp [setActive, hel]
  · rcases hid : el.sectionId with _ | id
    · simp [setActive, hel, hid]
    · by_cases hne : id = "" <;> simp [setActive, hel, hid, hne]

/-- setActive dispatches at most one event on any path. -/
theorem setActive_effects_len (sections : List SectionEl) (s : NavState) (idx : Nat) :
    (setActive sections s idx).2.length ≤ 1 := by
  rcases hel : sections[idx]? with _ | el
  · simp [setActive, hel]
  · rcases hid : el.sectionId with _ | id
    · simp [setActive, hel, hid]
    · by_cases hne : id = "" <;> simp [setActive, hel, hid, hne]

/-- scrollToIndex never changes activeIndex, activeSide or the pending
touch origin. -/
theorem scrollToIndex_preserves (sections : List SectionEl) (now : ℚ)
    (s : NavState) (index : Int) :
    (scrollToIndex sections now s index).1.activeIndex = s.activeIndex ∧
    (scrollToIndex sections now s index).1.activeSide = s.activeSide ∧
    (scrollToIndex sections now s index).1.touchStartY = s.touchStartY := by
  unfold scrollToIndex
  split <;> exact ⟨rfl, rfl, rfl⟩

/-- scrollToIndex issues no effect beyond the one scroll request. -/
theorem scrollToIndex_effects (sections : List SectionEl) (now : ℚ)
    (s : NavState) (index : Int) :
    (scrollToIndex sections now s index).2 = [] ∨
    (scrollToIndex sections now s index).2 = [Eff.scrollIntoView index.toNat] := by
  unfold scrollToIndex
  split
  · exact Or.inl rfl
  · exact Or.inr rfl

/-- handleWheel never changes activeIndex. -/
theorem handleWheel_activeIndex (sections : List SectionEl) (now : ℚ)
    (s : NavState) (dy : ℚ) :
    (handleWheel sections now s dy).1.activeIndex = s.activeIndex := by
  simp only [handleWheel, scrollToIndex, resetWheel, scheduleWheelReset]
  split_ifs <;> rfl

/-- handleWheel never dispatches a section-change event. -/
theorem handleWheel_no_publish (sections : List SectionEl) (now : ℚ)
    (s : NavState) (dy : ℚ) (i : String) (sd : Side) :
    Eff.publish i sd ∉ (handleWheel sections now s dy).2 := by
  simp only [handleWheel, scrollToIndex, resetWheel, scheduleWheelReset]
  split_ifs <;> simp

/-- handleTouchStart has no observable effects. -/
theorem handleTouchStart_effects (s : NavState) (ts : List ℚ) :
    (handleTouchStart s ts).2 = [] := by
  unfold handleTouchStart
  split <;> rfl

/-- handleTouchStart never changes activeIndex. -/
theorem handleTouchStart_activeIndex (s : NavState) (ts : List ℚ) :
    (handleTouchStart s ts).1.activeIndex = s.activeIndex := by
  unfold handleTouchStart
  split <;> rfl

/-- handleTouchMove never changes activeIndex. -/
theorem handleTouchMove_activeIndex (sections : List SectionEl) (now : ℚ)
    (s : NavState) (y : ℚ) :
    (handleTouchMove sections now s y).1.activeIndex = s.activeIndex := by
  rcases hts : s.touchStartY with _ | startY
  · simp [handleTouchMove, hts]
  · simp only [handleTouchMove, hts, scrollToIndex, resetWheel]
    split_ifs <;> rfl

/-- handleTouchMove never dispatches a section-change event. -/
theorem handleTouchMove_no_publish (sections : List SectionEl) (now : ℚ)
    (s : NavState) (y : ℚ) (i : String) (sd : Side) :
    Eff.publish i sd ∉ (handleTouchMove sections now s y).2 := by
  rcases hts : s.touchStartY with _ | startY
  · simp [handleTouchMove, hts]
  · simp only [handleTouchMove, hts, scrollToIndex, resetWheel]
    split_ifs <;> simp

/-- A publish effect can only come out of a visibility notification. -/
theorem navStep_publish_visibility (sections : List SectionEl) (s : NavState)
    (e : NavEvent) (i : String) (sd : Side)
    (h : Eff.publish i sd ∈ (navStep sections s e).2) :
    ∃ entries, e = NavEvent.visibility entries := by
  cases e with
  | visibility es => exact ⟨es, rfl⟩
  | wheel now dy =>
    simp only [navStep] at h
    exact absurd h (handleWheel_no_publish sections now s dy i sd)
  | touchStart ts =>
    simp [navStep, handleTouchStart_effects] at h
  | touchMove now y =>
    simp only [navStep] at h
    exact absurd h (handleTouchMove_no_publish sections now s y i sd)
  | touchEnd => simp [navStep] at h
  | wheelResetFire => simp [navStep] at h
  | releaseFire => simp [navStep] at h

/-- activeIndex can change only on a visibility notification. -/
theorem navStep_activeIndex_visibility (sections : List SectionEl) (s : NavState)
    (e : NavEvent) (h : (navStep sections s e).1.activeIndex ≠ s.activeIndex) :
    ∃ entries, e = NavEvent.visibility entries := by
  cases e with
  | visibility es => exact ⟨es, rfl⟩
  | wheel now dy =>
    simp only [navStep] at h
    exact absurd (handleWheel_activeIndex sections now s dy) h
  | touchStart ts =>
    simp only [navStep] at h
    exact absurd (handleTouchStart_activeIndex s ts) h
  | touchMove now y =>
    simp only [navStep] at h
    exact absurd (handleTouchMove_activeIndex sections now s y) h
  | touchEnd => exact absurd rfl h
  | wheelResetFire => exact absurd rfl h
  | releaseFire => exact absurd rfl h

/-- A foldl of per-element writes preserves the mask's length. -/
theorem foldl_length_invariant (l : List Nat) (mask : List Bool)
    (g : List Bool → Nat → List Bool) (hg : ∀ m i, (g m i).length = m.length) :
    (l.foldl g mask).length = mask.length := by
  induction l generalizing mask with
  | nil => rfl
  | cons a t ih => rw [List.foldl_cons, ih, hg]

/-- C4: after every insertion the ripple collection holds at most
MAX_RIPPLES (= 6) ripples, and an insertion into a collection already at
capacity removes exactly the single oldest ripple (the list's head) and
appends the new one. -/
theorem pushRipple_bounded (rs : List Ripple) (ox oy str now : ℚ)
    (h : rs.length ≤ MAX_RIPPLES) :
    (pushRipple rs ox oy str now).length ≤ MAX_RIPPLES ∧
    (rs.length = MAX_RIPPLES →
      pushRipple rs ox oy str now = rs.tail ++ [newRipple ox oy str now]) := by
  constructor
  · simp only [pushRipple]
    split
    · simpa using h
    · rename_i hlen
      simp only [List.length_append, List.length_singleton]
      simp only [List.length_append, List.length_singleton] at hlen
      omega
  · intro he
    simp only [pushRipple]
    rw [if_pos (by simp [he, MAX_RIPPLES])]
    cases rs with
    | nil => simp [MAX_RIPPLES] at he
    | cons a t => simp

/-- C4 witness: pushing into a six-ripple collection keeps the bound and
evicts the oldest. -/
theorem pushRipple_bounded_witness :
    rsFull.length ≤ MAX_RIPPLES ∧
    ((pushRipple rsFull 9 9 1 10).length ≤ MAX_RIPPLES ∧
      (rsFull.length = MAX_RIPPLES →
        pushRipple rsFull 9 9 1 10 = rsFull.tail ++ [newRipple 9 9 1 10])) :=
  ⟨by decide, pushRipple_bounded rsFull 9 9 1 10 (by decide)⟩

/-- C3 counterexample: a ripple whose age (2.7 s) exceeds its duration
(2.6 s) is still in the collection after a render frame — rendering
never removes expired ripples. -/
theorem ripple_retained_past_duration_cex :
    expiredRipple.duration < rippleAge expiredRipple 2700 ∧
    expiredRipple ∈ rippleStep [expiredRipple] (RippleOp.frame 2700) := by
  constructor
  · norm_num [expiredRipple, newRipple, rippleAge]
  · simp [rippleStep]

/-- C3 amended: render frames never remove ripples from the collection
(expired or not); a ripple in the collection disappears only through a
pushRipple insertion that overflows the MAX_RIPPLES capacity. -/
theorem ripple_removed_only_by_eviction (rs : List Ripple) (t : ℚ)
    (op : RippleOp) (r : Ripple) (hmem : r ∈ rs)
    (hgone : r ∉ rippleStep rs op) :
    rippleStep rs (RippleOp.frame t) = rs ∧
    ∃ ox oy str now, op = RippleOp.push ox oy str now ∧
      MAX_RIPPLES < rs.length + 1 := by
  refine ⟨rfl, ?_⟩
  cases op with
  | frame ts => exact absurd hmem hgone
  | push ox oy str now =>
    refine ⟨ox, oy, str, now, rfl, ?_⟩
    by_contra hle
    apply hgone
    simp only [rippleStep, pushRipple]
    rw [if_neg (by simpa using hle)]
    exact List.mem_append_left _ hmem

/-- C3 amended witness: the oldest of six ripples disappears when a
seventh is pushed, and the frame step left the collection unchanged. -/
theorem ripple_removed_only_by_eviction_witness :
    newRipple 0 0 1 0 ∈ rsFull ∧
    newRipple 0 0 1 0 ∉ rippleStep rsFull (RippleOp.push 9 9 1 20) ∧
    (rippleStep rsFull (RippleOp.frame 2700) = rsFull ∧
      ∃ ox oy str now, RippleOp.push 9 9 1 20 = RippleOp.push ox oy str now ∧
        MAX_RIPPLES < rsFull.length + 1) :=
  ⟨by simp [rsFull],
    by norm_num [rippleStep, pushRipple, rsFull, MAX_RIPPLES, newRipple],
    ripple_removed_only_by_eviction rsFull 2700 (RippleOp.push 9 9 1 20)
      (newRipple 0 0 1 0) (by simp [rsFull])
      (by norm_num [rippleStep, pushRipple, rsFull, MAX_RIPPLES, newRipple])⟩

/-- C5: once a ripple's age reaches its duration its additive
contribution to any cell is exactly zero, and the temporal decay factor
is non-increasing in age and never negative. -/
theorem rippleContribution_expired (r : Ripple) (timestamp px py cell : ℚ)
    (hd : 0 < r.duration) (hage : r.duration ≤ rippleAge r timestamp) :
    rippleContribution r timestamp px py cell = 0 ∧
    (∀ a1 a2 : ℚ, a1 ≤ a2 →
      temporalDecay a2 r.duration ≤ temporalDecay a1 r.duration) ∧
    (∀ a : ℚ, 0 ≤ temporalDecay a r.duration) := by
  have hz : temporalDecay (rippleAge r timestamp) r.duration = 0 := by
    have h1 : (1 : ℚ) ≤ rippleAge r timestamp / r.duration :=
      (one_le_div hd).mpr hage
    unfold temporalDecay
    exact max_eq_left (by linarith)
  refine ⟨?_, ?_, ?_⟩
  · unfold rippleContribution
    rw [hz]
    push_cast
    ring
  · intro a1 a2 h12
    have hdiv : a1 / r.duration ≤ a2 / r.duration := by gcongr
    unfold temporalDecay
    exact max_le_max le_rfl (by linarith)
  · intro a
    exact le_max_left _ _

/-- C5 witness: the concrete expired ripple contributes zero at a
concrete cell. -/
theorem rippleContribution_expired_witness :
    0 < expiredRipple.duration ∧
    expiredRipple.duration ≤ rippleAge expiredRipple 2700 ∧
    (rippleContribution expiredRipple 2700 36 54 18 = 0 ∧
      (∀ a1 a2 : ℚ, a1 ≤ a2 →
        temporalDecay a2 expiredRipple.duration ≤
          temporalDecay a1 expiredRipple.duration) ∧
      (∀ a : ℚ, 0 ≤ temporalDecay a expiredRipple.duration)) :=
  ⟨by norm_num [expiredRipple, newRipple],
    by norm_num [expiredRipple, newRipple, rippleAge],
    rippleContribution_expired expiredRipple 2700 36 54 18
      (by norm_num [expiredRipple, newRipple])
      (by norm_num [expiredRipple, newRipple, rippleAge])⟩

/-- C6: the programmatic scroll with a target below 0 or at or above the
section count is a silent no-op: the state (lock flag, accumulator, both
timers, activeIndex, activeSide, touch origin) is returned unchanged and
no effect is issued. -/
theorem scrollToIndex_out_of_range (sections : List SectionEl) (now : ℚ)
    (s : NavState) (index : Int) (hN : 1 ≤ sections.length)
    (h : index < 0 ∨ (sections.length : Int) ≤ index) :
    scrollToIndex sections now s index = (s, []) := by
  unfold scrollToIndex
  rw [if_pos h]

/-- C6 witness: target 5 on a one-section page changes nothing. -/
theorem scrollToIndex_out_of_range_witness :
    1 ≤ sections1.length ∧
    ((5 : Int) < 0 ∨ (sections1.length : Int) ≤ 5) ∧
    scrollToIndex sections1 3 nav0 5 = (nav0, []) :=
  ⟨by decide, by decide,
    scrollToIndex_out_of_range sections1 3 nav0 5 (by decide) (by decide)⟩

/-- C9: star-mask regeneration yields a mask of exactly cols*rows cells,
draws max(80, floor(cols*rows*0.012)) samples, and therefore at least 80
samples however small the grid. -/
theorem regenerateStars_size (cols rows : Nat) (rand : Nat → ℚ) :
    (regenerateStars cols rows rand).length = cols * rows ∧
    starCount (cols * rows) =
      max 80 (Nat.floor (((cols * rows : Nat) : ℚ) * STAR_DENSITY)) ∧
    80 ≤ starCount (cols * rows) := by
  refine ⟨?_, rfl, le_max_left _ _⟩
  unfold regenerateStars
  rw [foldl_length_invariant _ _ _ (fun m i => List.length_set ..)]
  exact List.length_replicate _ _

/-- C7: the wheel path issues a scroll request only when the handler is
unlocked and the updated accumulator's magnitude has reached
WHEEL_TRIGGER; and whenever an unlocked handler reaches the threshold,
the accumulator and its reset timer are cleared before it returns,
whether or not a transition fired. -/
theorem handleWheel_threshold (sections : List SectionEl) (now : ℚ)
    (s : NavState) (dy : ℚ) :
    (issuesScroll (handleWheel sections now s dy).2 = true →
      s.isAnimating = false ∧ WHEEL_TRIGGER ≤ |s.wheelDelta + dy|) ∧
    (s.isAnimating = false → WHEEL_TRIGGER ≤ |s.wheelDelta + dy| →
      (handleWheel sections now s dy).1.wheelDelta = 0 ∧
      (handleWheel sections now s dy).1.wheelResetTimer = none) := by
  simp only [handleWheel, scheduleWheelReset, resetWheel, scrollToIndex]
  split_ifs with h1 h2 <;> constructor <;>
    first
    | (intro hscr; simp [issuesScroll] at hscr; done)
    | (intro hA; rw [h1] at hA; exact absurd hA (by simp))
    | (intro hA hge; exact absurd h2 (not_lt.mpr hge))
    | exact fun hscr => ⟨by simpa using h1, not_lt.mp h2⟩
    | exact fun hA hge => ⟨rfl, rfl⟩

/-- C7 witness: an idle navigator receiving a delta of 90 issues a
scroll and ends with the accumulator cleared. -/
theorem handleWheel_threshold_witness :
    (issuesScroll (handleWheel sections2 0 nav0 90).2 = true ∧
      nav0.isAnimating = false ∧ WHEEL_TRIGGER ≤ |nav0.wheelDelta + 90|) ∧
    ((handleWheel sections2 0 nav0 90).1.wheelDelta = 0 ∧
      (handleWheel sections2 0 nav0 90).1.wheelResetTimer = none) :=
  ⟨⟨by norm_num [handleWheel, nav0, scheduleWheelReset, resetWheel,
      scrollToIndex, sections2, WHEEL_TRIGGER, issuesScroll],
    (handleWheel_threshold sections2 0 nav0 90).1
      (by norm_num [handleWheel, nav0, scheduleWheelReset, resetWheel,
        scrollToIndex, sections2, WHEEL_TRIGGER, issuesScroll])⟩,
    (handleWheel_threshold sections2 0 nav0 90).2 rfl
      (by norm_num [nav0, WHEEL_TRIGGER])⟩

/-- C1 counterexample: with section 0 already active and previously
published, a visibility notification reporting section 0 as most visible
publishes again: an extra event with no index change. -/
theorem duplicate_publish_cex :
    nav0.activeIndex = 0 ∧
    (observerCallback sections2 nav0 [⟨0, true, 9 / 10⟩]).1.activeIndex = 0 ∧
    (observerCallback sections2 nav0 [⟨0, true, 9 / 10⟩]).2 =
      [Eff.publish "about" Side.left] :=
  ⟨rfl, rfl, rfl⟩

/-- C1 amended: each visibility notification resolving to a section with
a non-empty id publishes exactly one event, also when that section is
already the active one (so duplicate events occur while activeIndex is
unchanged); and no notification ever publishes more than one event. -/
theorem observerCallback_publishes_each_resolution (sections : List SectionEl)
    (s : NavState) (entries : List ObsEntry) (e : ObsEntry) (el : SectionEl)
    (id : String) (hpick : pickMostVisible entries = some e)
    (hel : sections[e.target]? = some el)
    (hid : el.sectionId = some id) (hne : id ≠ "") :
    (observerCallback sections s entries).2 = [Eff.publish id (sideOf el)] ∧
    (observerCallback sections s entries).1.activeIndex = e.target ∧
    ∀ es : List ObsEntry, (observerCallback sections s es).2.length ≤ 1 := by
  refine ⟨?_, ?_, ?_⟩
  · simp [observerCallback, hpick, setActive, hel, hid, hne]
  · simp [observerCallback, hpick, setActive, hel, hid, hne]
  · intro es
    rcases hp : pickMostVisible es with _ | e2
    · simp [observerCallback, hp]
    · simpa [observerCallback, hp] using setActive_effects_len sections s e2.target

/-- C1 amended witness: the concrete duplicate notification publishes
exactly one event. -/
theorem observerCallback_publishes_each_resolution_witness :
    pickMostVisible [⟨0, true, 9 / 10⟩] = some ⟨0, true, 9 / 10⟩ ∧
    sections2[(0 : Nat)]? = some ⟨some "about", some "left"⟩ ∧
    (some "about" : Option String) = some "about" ∧
    "about" ≠ "" ∧
    ((observerCallback sections2 nav0 [⟨0, true, 9 / 10⟩]).2 =
        [Eff.publish "about" (sideOf ⟨some "about", some "left"⟩)] ∧
      (observerCallback sections2 nav0 [⟨0, true, 9 / 10⟩]).1.activeIndex =
        (⟨0, true, 9 / 10⟩ : ObsEntry).target ∧
      ∀ es : List ObsEntry,
        (observerCallback sections2 nav0 es).2.length ≤ 1) :=
  ⟨rfl, rfl, rfl, by decide,
    observerCallback_publishes_each_resolution sections2 nav0
      [⟨0, true, 9 / 10⟩] ⟨0, true, 9 / 10⟩ ⟨some "about", some "left"⟩
      "about" rfl rfl rfl (by decide)⟩

/-- handleWheel while locked consumes the event and changes nothing. -/
theorem handleWheel_locked (sections : List SectionEl) (now : ℚ) (s : NavState)
    (dy : ℚ) (h : s.isAnimating = true) :
    handleWheel sections now s dy = (s, [Eff.preventDefault]) := by
  simp [handleWheel, h]

/-- handleTouchMove while locked is ignored entirely. -/
theorem handleTouchMove_locked (sections : List SectionEl) (now : ℚ)
    (s : NavState) (y : ℚ) (h : s.isAnimating = true) :
    handleTouchMove sections now s y = (s, []) := by
  rcases hts : s.touchStartY with _ | startY <;> simp [handleTouchMove, hts, h]

/-- While locked, no event except the release-timer callback changes the
lock flag or the release deadline. -/
theorem navStep_locked_preserves (sections : List SectionEl) (s : NavState)
    (e : NavEvent) (h : s.isAnimating = true) (he : e ≠ NavEvent.releaseFire) :
    (navStep sections s e).1.isAnimating = true ∧
    (navStep sections s e).1.releaseTimer = s.releaseTimer := by
  cases e with
  | wheel now dy =>
    simp [navStep, handleWheel_locked sections now s dy h, h]
  | touchStart ts =>
    simp only [navStep]
    unfold handleTouchStart
    split <;> simp [resetWheel, h]
  | touchMove now y =>
    simp [navStep, handleTouchMove_locked sections now s y h, h]
  | touchEnd => exact ⟨h, rfl⟩
  | visibility es =>
    simp only [navStep]
    rcases hp : pickMostVisible es with _ | e2
    · simp [observerCallback, hp, h]
    · simp only [observerCallback, hp]
      obtain ⟨h1, h2, _⟩ := setActive_frame sections s e2.target
      exact ⟨h1.trans h, h2⟩
  | wheelResetFire => exact ⟨h, rfl⟩
  | releaseFire => exact absurd rfl he

/-- C2: while the lock flag is set, a wheel event is consumed outright
(state unchanged, only a preventDefault), a touch-move is ignored
(state unchanged, no effect), and no event other than the release-timer
callback alters the lock or its deadline; the release-timer callback
itself drops the lock unconditionally, and any in-range programmatic
scroll arms that timer exactly SCROLL_LOCK_MS (900 ms) ahead. -/
theorem locked_input_suppressed_timed_unlock (sections : List SectionEl)
    (s : NavState) (now dy y : ℚ) (e : NavEvent) (index : Int)
    (h : s.isAnimating = true) (he : e ≠ NavEvent.releaseFire)
    (h0 : 0 ≤ index) (h1 : index < (sections.length : Int)) :
    handleWheel sections now s dy = (s, [Eff.preventDefault]) ∧
    handleTouchMove sections now s y = (s, []) ∧
    (navStep sections s e).1.isAnimating = true ∧
    (navStep sections s e).1.releaseTimer = s.releaseTimer ∧
    (navStep sections s NavEvent.releaseFire).1.isAnimating = false ∧
    (scrollToIndex sections now s index).1.releaseTimer =
      some (now + SCROLL_LOCK_MS) := by
  obtain ⟨p1, p2⟩ := navStep_locked_preserves sections s e h he
  refine ⟨handleWheel_locked sections now s dy h,
    handleTouchMove_locked sections now s y h, p1, p2, rfl, ?_⟩
  have hcond : ¬(index < 0 ∨ (sections.length : Int) ≤ index) := by
    push_neg
    exact ⟨h0, h1⟩
  unfold scrollToIndex
  rw [if_neg hcond]

/-- C2 witness: a locked navigator at a concrete state suppresses both
gesture kinds and the release timer is armed 900 ms ahead. -/
theorem locked_input_suppressed_timed_unlock_witness :
    navLocked.isAnimating = true ∧
    NavEvent.wheelResetFire ≠ NavEvent.releaseFire ∧
    (0 : Int) ≤ 0 ∧ (0 : Int) < (sections1.length : Int) ∧
    (handleWheel sections1 3 navLocked 120 = (navLocked, [Eff.preventDefault]) ∧
      handleTouchMove sections1 3 navLocked 7 = (navLocked, []) ∧
      (navStep sections1 navLocked NavEvent.wheelResetFire).1.isAnimating = true ∧
      (navStep sections1 navLocked NavEvent.wheelResetFire).1.releaseTimer =
        navLocked.releaseTimer ∧
      (navStep sections1 navLocked NavEvent.releaseFire).1.isAnimating = false ∧
      (scrollToIndex sections1 3 navLocked 0).1.releaseTimer =
        some (3 + SCROLL_LOCK_MS)) :=
  ⟨rfl, by decide, by decide, by decide,
    locked_input_suppressed_timed_unlock sections1 navLocked 3 120 7
      NavEvent.wheelResetFire 0 rfl (by decide) (by decide) (by decide)⟩

/-- C8 counterexample: a section-change payload carrying an id but no
side is not a no-op — the tint adopts the id and a ripple is inserted
(the side merely defaults to 'left'). -/
theorem missing_side_not_noop_cex :
    (handleSectionChange ⟨"about", []⟩ (some ⟨some "tech", none⟩)
        1000 800 0).activeSection = "tech" ∧
    (handleSectionChange ⟨"about", []⟩ (some ⟨some "tech", none⟩)
        1000 800 0).ripples.length = 1 :=
  ⟨rfl, rfl⟩

/-- C8 amended: a payload whose id is missing or empty (or a missing
payload) is a silent no-op for the canvas, and a section element without
an id is a silent no-op for the navigator's publisher; but a payload
missing only the side proceeds exactly as if the side were 'left' (the
tint updates and a ripple is inserted); no handler signals an error. -/
theorem missing_field_handling (c : CanvasState) (w h now : ℚ)
    (sd : Option String) (id : String) (sections : List SectionEl)
    (s : NavState) (idx : Nat) (el : SectionEl)
    (hel : sections[idx]? = some el) (hid : el.sectionId = none) :
    handleSectionChange c none w h now = c ∧
    handleSectionChange c (some ⟨none, sd⟩) w h now = c ∧
    handleSectionChange c (some ⟨some "", sd⟩) w h now = c ∧
    handleSectionChange c (some ⟨some id, none⟩) w h now =
      handleSectionChange c (some ⟨some id, some "left"⟩) w h now ∧
    setActive sections s idx = (s, []) := by
  refine ⟨rfl, rfl, rfl, rfl, ?_⟩
  simp [setActive, hel, hid]

/-- C8 amended witness: concrete no-op payloads and an id-less section. -/
theorem missing_field_handling_witness :
    sections3[(0 : Nat)]? = some ⟨none, some "left"⟩ ∧
    (⟨none, some "left"⟩ : SectionEl).sectionId = none ∧
    (handleSectionChange ⟨"about", []⟩ none 1000 800 0 = ⟨"about", []⟩ ∧
      handleSectionChange ⟨"about", []⟩ (some ⟨none, some "right"⟩) 1000 800 0 =
        ⟨"about", []⟩ ∧
      handleSectionChange ⟨"about", []⟩ (some ⟨some "", some "right"⟩) 1000 800 0 =
        ⟨"about", []⟩ ∧
      handleSectionChange ⟨"about", []⟩ (some ⟨some "tech", none⟩) 1000 800 0 =
        handleSectionChange ⟨"about", []⟩ (some ⟨some "tech", some "left"⟩)
          1000 800 0 ∧
      setActive sections3 nav0 0 = (nav0, [])) :=
  ⟨rfl, rfl,
    missing_field_handling ⟨"about", []⟩ 1000 800 0 (some "right") "tech"
      sections3 nav0 0 ⟨none, some "left"⟩ rfl rfl⟩

/-- C10: an in-range programmatic scroll touches only the lock flag, the
wheel accumulator and the two timers — activeIndex, activeSide and the
touch origin keep their values and the only effect is the one scroll
request, never a publication; and across every navigator event, a
publication or an activeIndex change can only come from a visibility
notification (the setActive path). -/
theorem scrollToIndex_frame_only (sections : List SectionEl) (now : ℚ)
    (s : NavState) (index : Int) (e : NavEvent)
    (h0 : 0 ≤ index) (h1 : index < (sections.length : Int)) :
    (scrollToIndex sections now s index).1.activeIndex = s.activeIndex ∧
    (scrollToIndex sections now s index).1.activeSide = s.activeSide ∧
    (scrollToIndex sections now s index).1.touchStartY = s.touchStartY ∧
    (scrollToIndex sections now s index).2 = [Eff.scrollIntoView index.toNat] ∧
    (scrollToIndex sections now s index).1.isAnimating = true ∧
    (scrollToIndex sections now s index).1.wheelDelta = 0 ∧
    (scrollToIndex sections now s index).1.wheelResetTimer = none ∧
    (scrollToIndex sections now s index).1.releaseTimer =
      some (now + SCROLL_LOCK_MS) ∧
    (∀ i sd, Eff.publish i sd ∈ (navStep sections s e).2 →
      ∃ entries, e = NavEvent.visibility entries) ∧
    ((navStep sections s e).1.activeIndex ≠ s.activeIndex →
      ∃ entries, e = NavEvent.visibility entries) := by
  have hcond : ¬(index < 0 ∨ (sections.length : Int) ≤ index) := by
    push_neg
    exact ⟨h0, h1⟩
  refine ⟨?_, ?_, ?_, ?_, ?_, ?_, ?_, ?_,
    fun i sd hmem => navStep_publish_visibility sections s e i sd hmem,
    fun hne => navStep_activeIndex_visibility sections s e hne⟩ <;>
  · unfold scrollToIndex
    rw [if_neg hcond]
    try rfl

/-- C10 witness: the concrete in-range scroll keeps activeIndex,
activeSide and the touch origin, and a concrete wheel event neither
publishes nor moves activeIndex. -/
theorem scrollToIndex_frame_only_witness :
    (0 : Int) ≤ 1 ∧ (1 : Int) < (sections2.length : Int) ∧
    ((scrollToIndex sections2 7 nav0 1).1.activeIndex = nav0.activeIndex ∧
      (scrollToIndex sections2 7 nav0 1).1.activeSide = nav0.activeSide ∧
      (scrollToIndex sections2 7 nav0 1).1.touchStartY = nav0.touchStartY ∧
      (scrollToIndex sections2 7 nav0 1).2 =
        [Eff.scrollIntoView (1 : Int).toNat] ∧
      (scrollToIndex sections2 7 nav0 1).1.isAnimating = true ∧
      (scrollToIndex sections2 7 nav0 1).1.wheelDelta = 0 ∧
      (scrollToIndex sections2 7 nav0 1).1.wheelResetTimer = none ∧
      (scrollToIndex sections2 7 nav0 1).1.releaseTimer =
        some (7 + SCROLL_LOCK_MS) ∧
      (∀ i sd,
        Eff.publish i sd ∈ (navStep sections2 nav0 (NavEvent.wheel 7 90)).2 →
          ∃ entries, NavEvent.wheel 7 90 = NavEvent.visibility entries) ∧
      ((navStep sections2 nav0 (NavEvent.wheel 7 90)).1.activeIndex ≠
          nav0.activeIndex →
        ∃ entries, NavEvent.wheel 7 90 = NavEvent.visibility entries)) :=
  ⟨by decide, by decide,
    scrollToIndex_frame_only sections2 7 nav0 1 (NavEvent.wheel 7 90)
      (by decide) (by decide)⟩

end PersonalSite
